import Mathlib

/-!
Verification development for the payment-routing rule evaluation engine of
this repository, centred on `crates/euclid_wasm/src/lib.rs`.

The WASM entry points (`seed_knowledge_graph`, `get_valid_connectors_for_rule`,
`get_variant_values`) are embedded from the source.  Collaborators that live in
the `euclid` / `hyperswitch_constraint_graph` crates (rule lowering, the
constraint-graph analysis, the rule context manager) are not part of the
source excerpt; they are modelled from the specification, and every such
definition says so in its doc comment.
-/

namespace Routing

/-- Modelled from the spec: a `DirValue` is a concrete value of a directive
key — an attribute/value pair describing a transaction or a connector
capability.  Values are comparable for equality within the same key.
(Numeric-range and open-string domains are not needed by the claims and are
represented as plain strings.) -/
structure DirValue where
  key : String
  value : String
deriving DecidableEq, Repr

/-- A connector choice, identified by its canonical connector name
(`ast::ConnectorChoice` wraps a `RoutableConnectors` identifier). -/
abbrev ConnectorChoice := String

/-- From the source (line 169): a connector choice participates in graph
assertions as the directive value `DirValue::Connector(choice)`. -/
def connectorDirValue (c : ConnectorChoice) : DirValue :=
  { key := "Connector", value := c }

/-- Modelled from the spec: the constraint graph, reduced to what the
analysis observes — the set of pairs of directive values that its edges
(implication / mutual exclusion) make jointly unsatisfiable, plus the keys
whose domains are aggregators (several values of such a key may coexist).
Node tables and edge kinds are collapsed into this incompatibility relation;
domain exclusivity for non-aggregator keys is built into the analysis. -/
structure ConstraintGraph where
  incompatible : List (DirValue × DirValue)
  aggregatedKeys : List String
deriving DecidableEq, Repr

/-- Modelled from the spec (§4.3): two assertions conflict when they assert
two different concrete values for the same single-valued (non-aggregator)
key, or when a graph edge makes them mutually unsatisfiable. -/
def ConstraintGraph.conflicts (g : ConstraintGraph) (a b : DirValue) : Bool :=
  (a.key == b.key && a.value != b.value && !(g.aggregatedKeys.contains a.key))
    || g.incompatible.contains (a, b)
    || g.incompatible.contains (b, a)

/-- Modelled from the spec (§4.3): `perform_context_analysis` walks the
context's assertions and for each verifies consistency against the other
assertions in the context; it returns `Err` citing the first unsatisfiable
node encountered and short-circuits.  The memoization argument of the source
is a per-call cache that does not change results and is omitted here. -/
def ConstraintGraph.perform_context_analysis (g : ConstraintGraph) :
    List DirValue → Except String Unit
  | [] => Except.ok ()
  | v :: rest =>
      if rest.any (fun w => g.conflicts v w) then
        Except.error ("unsatisfiable assertion: " ++ v.key ++ " " ++ v.value)
      else
        g.perform_context_analysis rest

/-- A conjunctive analysis context: the ordered sequence of directive-value
assertions currently pushed (assertion metadata carried by the source's
`ContextValue` is irrelevant to analysis and dropped). -/
abbrev Context := List DirValue

/-- `Context::push`: append an assertion at the top of the stack. -/
def Context.push (ctx : Context) (v : DirValue) : Context := ctx ++ [v]

/-- `Context::pop`: remove the most recently pushed assertion. -/
def Context.pop (ctx : Context) : Context := ctx.dropLast

/-- A surface comparison of the rule AST: `key == value` in its typed
surface form, before lowering. -/
structure Comparison where
  key : String
  value : String
deriving DecidableEq, Repr

/-- A conjunctive clause: the comparisons that must all hold. -/
structure Clause where
  comparisons : List Comparison
deriving DecidableEq, Repr

/-- A rule statement: a DNF condition (ordered clauses) paired with an
output payload (the payload is not consulted by connector validation). -/
structure RuleStatement where
  clauses : List Clause
  payload : String
deriving DecidableEq, Repr

/-- A rule: named ordered statements plus a default selection payload. -/
structure Rule where
  name : String
  statements : List RuleStatement
  defaultSelection : String
deriving DecidableEq, Repr

/-- Modelled from the spec: the recognized directive domain — for each known
key, its list of legal surface values.  A key absent from the table is
unknown; a value outside its key's list is unrecognized. -/
structure DirectiveDomain where
  table : List (String × List String)
deriving DecidableEq, Repr

/-- Look a key up in the directive domain. -/
def DirectiveDomain.findKey (dom : DirectiveDomain) (k : String) :
    Option (List String) :=
  (dom.table.find? (fun p => p.1 == k)).map (fun p => p.2)

/-- Modelled from the spec (§4.2): lower one comparison, failing if the
referenced key/value pair is not part of the recognized domain. -/
def lowerComparison (dom : DirectiveDomain) (c : Comparison) :
    Except String DirValue :=
  match dom.findKey c.key with
  | none => Except.error ("lowering error: unknown key " ++ c.key)
  | some vs =>
      if vs.contains c.value then
        Except.ok { key := c.key, value := c.value }
      else
        Except.error ("lowering error: unknown value " ++ c.value)

/-- Modelled from the spec (§4.2): lower every comparison of a clause,
preserving order. -/
def lowerClause (dom : DirectiveDomain) (c : Clause) :
    Except String (List DirValue) :=
  c.comparisons.mapM (lowerComparison dom)

/-- Modelled from the spec (§4.2): `lower_rule` translates every comparison
in every conjunctive clause of every statement, preserving clause and
statement ordering exactly.  The result keeps the statement/clause shape. -/
def lower_rule (dom : DirectiveDomain) (r : Rule) :
    Except String (List (List (List DirValue))) :=
  r.statements.mapM (fun st => st.clauses.mapM (lowerClause dom))

/-- Modelled from the spec (§4.4): the rule context manager yields, in
rule-priority order, one context per (statement, clause) pair: the fixed
pre-assertions as a base layer followed by the clause's assertions.  The
source constructs it with an empty pre-assertion list (line 173). -/
def ruleContexts (dirRule : List (List (List DirValue))) (base : Context) :
    List Context :=
  dirRule.flatMap (fun st => st.map (fun clause => base ++ clause))

/-- The data held by the `SEED_DATA` once-cell: the combined analysis graph
and the merchant's configured connector list (source lines 45-50). -/
structure SeedData where
  cgraph : ConstraintGraph
  connectors : List ConnectorChoice
deriving DecidableEq, Repr

/-- The process-wide WASM state relevant to the claims: the `SEED_DATA`
once-cell, empty until `seed_knowledge_graph` first succeeds. -/
structure WasmState where
  seed : Option SeedData
deriving DecidableEq, Repr

/-- The inner candidate loop of `get_valid_connectors_for_rule` (source
lines 192-208): for each candidate connector not already invalid, push its
connector assertion, run a full analysis with a fresh memoization scope,
mark the connector invalid if the analysis failed, and pop the assertion
afterward regardless of outcome.  The context is threaded explicitly to
mirror the in-place mutation of the source. -/
def checkConnectorsLoop (g : ConstraintGraph)
    (cands : List (ConnectorChoice × DirValue)) (ctx : Context)
    (invalid : List ConnectorChoice) : Context × List ConnectorChoice :=
  match cands with
  | [] => (ctx, invalid)
  | (conn, choice) :: rest =>
      if conn ∈ invalid then
        checkConnectorsLoop g rest ctx invalid
      else
        let ctx1 := ctx.push choice
        let analysisResult := g.perform_context_analysis ctx1
        let invalid1 :=
          if analysisResult.isOk then invalid else conn :: invalid
        checkConnectorsLoop g rest ctx1.pop invalid1

/-- The outer context loop of `get_valid_connectors_for_rule` (source lines
179-209): for each conjunctive context, first run the standalone analysis of
the bare context — its error, if any, is propagated out by `err_to_js()?` —
then run the candidate loop, accumulating the invalid-connector set. -/
def contextsLoop (g : ConstraintGraph) (ctxs : List Context)
    (cands : List (ConnectorChoice × DirValue))
    (invalid : List ConnectorChoice) :
    Except String (List ConnectorChoice) :=
  match ctxs with
  | [] => Except.ok invalid
  | ctx :: rest =>
      match g.perform_context_analysis ctx with
      | Except.error e => Except.error e
      | Except.ok _ =>
          let st := checkConnectorsLoop g cands ctx invalid
          contextsLoop g rest cands st.2

/-- Lowering plus the two loops of `get_valid_connectors_for_rule`,
returning the final invalid-connector set (source lines 164-209). -/
def evalInvalid (dom : DirectiveDomain) (sd : SeedData) (r : Rule) :
    Except String (List ConnectorChoice) :=
  match lower_rule dom r with
  | Except.error e => Except.error e
  | Except.ok dirRule =>
      contextsLoop sd.cgraph (ruleContexts dirRule [])
        (sd.connectors.map (fun c => (c, connectorDirValue c))) []

/-- `get_valid_connectors_for_rule` (source lines 160-217): require seeded
data, lower the rule, run the context/candidate loops, and return the seeded
candidate list with the invalid connectors removed (`retain` keeps original
order), projected back to connector choices. -/
def get_valid_connectors_for_rule (dom : DirectiveDomain) (st : WasmState)
    (r : Rule) : Except String (List ConnectorChoice) :=
  match st.seed with
  | none => Except.error "Data not seeded"
  | some sd =>
      match evalInvalid dom sd r with
      | Except.error e => Except.error e
      | Except.ok invalid =>
          Except.ok
            (((sd.connectors.map (fun c => (c, connectorDirValue c))).filter
                (fun p => !decide (p.1 ∈ invalid))).map (fun p => p.1))

/-- The WASM call as a state transformer: the Rust function only reads the
`SEED_DATA` once-cell and mutates no global, so the process state it returns
is the state it was given. -/
def get_valid_connectors_call (dom : DirectiveDomain) (st : WasmState)
    (r : Rule) : Except String (List ConnectorChoice) × WasmState :=
  (get_valid_connectors_for_rule dom st r, st)

/-- Modelled from the spec: the input of `seed_knowledge_graph` reduced to
the outcome of its pre-seeding pipeline — connector-name parsing,
`make_mca_graph`, and `ConstraintGraph::combine` with the static analysis
graph (source lines 120-143), each of which can fail with its own error. -/
structure SeedInput where
  buildResult : Except String SeedData
deriving Repr

/-- `seed_knowledge_graph` (source lines 118-154): build the combined graph
and connector list, then store them in the `SEED_DATA` once-cell;
`OnceLock::set` fails, leaving the stored value unchanged, when the cell is
already filled. -/
def seed_knowledge_graph (st : WasmState) (inp : SeedInput) :
    Except String Unit × WasmState :=
  match inp.buildResult with
  | Except.error e => (Except.error e, st)
  | Except.ok sd =>
      match st.seed with
      | some _ =>
          (Except.error "Knowledge Graph has been already seeded", st)
      | none => (Except.ok (), { seed := some sd })

/-- `dir::DirKeyKind`: the typed directive keys, with exactly the variants
the `get_variant_values` match of the source distinguishes (lines 300-342). -/
inductive DirKeyKind where
  | PaymentMethod | CardType | CardNetwork | PayLaterType | WalletType
  | BankRedirectType | CryptoType | RewardType | AuthenticationType
  | CaptureMethod | PaymentCurrency | BusinessCountry | BillingCountry
  | BankTransferType | UpiType | SetupFutureUsage | PaymentType
  | MandateType | MandateAcceptanceType | CardRedirectType | GiftCardType
  | VoucherType | BankDebitType | RealTimePaymentType | OpenBankingType
  | MobilePaymentType | IssuerCountry | AcquirerCountry
  | CustomerDeviceType | CustomerDevicePlatform | CustomerDeviceDisplaySize
  | PaymentAmount | Connector | CardBin | BusinessLabel | MetaData
  | IssuerName | AcquirerFraudRate
deriving DecidableEq, Repr

/-- The `dir_enums` value enumerations the source's match arms reference.
Their `VARIANTS` string lists live outside the source excerpt, so
`get_variant_values` takes the table of lists as a parameter; what matters
is which enumeration each key is sent to (e.g. the four country keys all
share `Country`). -/
inductive DirEnum where
  | PaymentMethod | CardType | CardNetwork | PayLaterType | WalletType
  | BankRedirectType | CryptoType | RewardType | AuthenticationType
  | CaptureMethod | PaymentCurrency | Country | BankTransferType | UpiType
  | SetupFutureUsage | PaymentType | MandateType | MandateAcceptanceType
  | CardRedirectType | GiftCardType | VoucherType | BankDebitType
  | RealTimePaymentType | OpenBankingType | MobilePaymentType
  | CustomerDeviceType | CustomerDevicePlatform | CustomerDeviceDisplaySize
deriving DecidableEq, Repr

/-- `get_variant_values` (source lines 296-345), after the key string has
been resolved to a typed key: map each enumerable key to the `VARIANTS` of
its enumeration, and fail for the numeric/metadata/open-string keys. -/
def get_variant_values (tables : DirEnum → List String)
    (key : DirKeyKind) : Except String (List String) :=
  match key with
  | DirKeyKind.PaymentMethod => Except.ok (tables DirEnum.PaymentMethod)
  | DirKeyKind.CardType => Except.ok (tables DirEnum.CardType)
  | DirKeyKind.CardNetwork => Except.ok (tables DirEnum.CardNetwork)
  | DirKeyKind.PayLaterType => Except.ok (tables DirEnum.PayLaterType)
  | DirKeyKind.WalletType => Except.ok (tables DirEnum.WalletType)
  | DirKeyKind.BankRedirectType => Except.ok (tables DirEnum.BankRedirectType)
  | DirKeyKind.CryptoType => Except.ok (tables DirEnum.CryptoType)
  | DirKeyKind.RewardType => Except.ok (tables DirEnum.RewardType)
  | DirKeyKind.AuthenticationType =>
      Except.ok (tables DirEnum.AuthenticationType)
  | DirKeyKind.CaptureMethod => Except.ok (tables DirEnum.CaptureMethod)
  | DirKeyKind.PaymentCurrency => Except.ok (tables DirEnum.PaymentCurrency)
  | DirKeyKind.BusinessCountry => Except.ok (tables DirEnum.Country)
  | DirKeyKind.BillingCountry => Except.ok (tables DirEnum.Country)
  | DirKeyKind.BankTransferType => Except.ok (tables DirEnum.BankTransferType)
  | DirKeyKind.UpiType => Except.ok (tables DirEnum.UpiType)
  | DirKeyKind.SetupFutureUsage => Except.ok (tables DirEnum.SetupFutureUsage)
  | DirKeyKind.PaymentType => Except.ok (tables DirEnum.PaymentType)
  | DirKeyKind.MandateType => Except.ok (tables DirEnum.MandateType)
  | DirKeyKind.MandateAcceptanceType =>
      Except.ok (tables DirEnum.MandateAcceptanceType)
  | DirKeyKind.CardRedirectType => Except.ok (tables DirEnum.CardRedirectType)
  | DirKeyKind.GiftCardType => Except.ok (tables DirEnum.GiftCardType)
  | DirKeyKind.VoucherType => Except.ok (tables DirEnum.VoucherType)
  | DirKeyKind.BankDebitType => Except.ok (tables DirEnum.BankDebitType)
  | DirKeyKind.RealTimePaymentType =>
      Except.ok (tables DirEnum.RealTimePaymentType)
  | DirKeyKind.OpenBankingType => Except.ok (tables DirEnum.OpenBankingType)
  | DirKeyKind.MobilePaymentType =>
      Except.ok (tables DirEnum.MobilePaymentType)
  | DirKeyKind.IssuerCountry => Except.ok (tables DirEnum.Country)
  | DirKeyKind.AcquirerCountry => Except.ok (tables DirEnum.Country)
  | DirKeyKind.CustomerDeviceType =>
      Except.ok (tables DirEnum.CustomerDeviceType)
  | DirKeyKind.CustomerDevicePlatform =>
      Except.ok (tables DirEnum.CustomerDevicePlatform)
  | DirKeyKind.CustomerDeviceDisplaySize =>
      Except.ok (tables DirEnum.CustomerDeviceDisplaySize)
  | DirKeyKind.PaymentAmount => Except.error "Key does not have variants"
  | DirKeyKind.Connector => Except.error "Key does not have variants"
  | DirKeyKind.CardBin => Except.error "Key does not have variants"
  | DirKeyKind.BusinessLabel => Except.error "Key does not have variants"
  | DirKeyKind.MetaData => Except.error "Key does not have variants"
  | DirKeyKind.IssuerName => Except.error "Key does not have variants"
  | DirKeyKind.AcquirerFraudRate => Except.error "Key does not have variants"

/-- The keys whose domains are not enumerable, exactly the error arm of the
`get_variant_values` match (source lines 335-341). -/
def nonEnumerableKeys : List DirKeyKind :=
  [DirKeyKind.PaymentAmount, DirKeyKind.Connector, DirKeyKind.CardBin,
   DirKeyKind.BusinessLabel, DirKeyKind.MetaData, DirKeyKind.IssuerName,
   DirKeyKind.AcquirerFraudRate]

/-- The enumeration each enumerable key is sent to by the match arms of
`get_variant_values`, and `none` for the keys of its error arm; this is the
shape of the source's match, separated from the table contents. -/
def variantSource : DirKeyKind → Option DirEnum
  | DirKeyKind.PaymentMethod => some DirEnum.PaymentMethod
  | DirKeyKind.CardType => some DirEnum.CardType
  | DirKeyKind.CardNetwork => some DirEnum.CardNetwork
  | DirKeyKind.PayLaterType => some DirEnum.PayLaterType
  | DirKeyKind.WalletType => some DirEnum.WalletType
  | DirKeyKind.BankRedirectType => some DirEnum.BankRedirectType
  | DirKeyKind.CryptoType => some DirEnum.CryptoType
  | DirKeyKind.RewardType => some DirEnum.RewardType
  | DirKeyKind.AuthenticationType => some DirEnum.AuthenticationType
  | DirKeyKind.CaptureMethod => some DirEnum.CaptureMethod
  | DirKeyKind.PaymentCurrency => some DirEnum.PaymentCurrency
  | DirKeyKind.BusinessCountry => some DirEnum.Country
  | DirKeyKind.BillingCountry => some DirEnum.Country
  | DirKeyKind.BankTransferType => some DirEnum.BankTransferType
  | DirKeyKind.UpiType => some DirEnum.UpiType
  | DirKeyKind.SetupFutureUsage => some DirEnum.SetupFutureUsage
  | DirKeyKind.PaymentType => some DirEnum.PaymentType
  | DirKeyKind.MandateType => some DirEnum.MandateType
  | DirKeyKind.MandateAcceptanceType => some DirEnum.MandateAcceptanceType
  | DirKeyKind.CardRedirectType => some DirEnum.CardRedirectType
  | DirKeyKind.GiftCardType => some DirEnum.GiftCardType
  | DirKeyKind.VoucherType => some DirEnum.VoucherType
  | DirKeyKind.BankDebitType => some DirEnum.BankDebitType
  | DirKeyKind.RealTimePaymentType => some DirEnum.RealTimePaymentType
  | DirKeyKind.OpenBankingType => some DirEnum.OpenBankingType
  | DirKeyKind.MobilePaymentType => some DirEnum.MobilePaymentType
  | DirKeyKind.IssuerCountry => some DirEnum.Country
  | DirKeyKind.AcquirerCountry => some DirEnum.Country
  | DirKeyKind.CustomerDeviceType => some DirEnum.CustomerDeviceType
  | DirKeyKind.CustomerDevicePlatform => some DirEnum.CustomerDevicePlatform
  | DirKeyKind.CustomerDeviceDisplaySize =>
      some DirEnum.CustomerDeviceDisplaySize
  | DirKeyKind.PaymentAmount => none
  | DirKeyKind.Connector => none
  | DirKeyKind.CardBin => none
  | DirKeyKind.BusinessLabel => none
  | DirKeyKind.MetaData => none
  | DirKeyKind.IssuerName => none
  | DirKeyKind.AcquirerFraudRate => none

/-- A small directive domain used in concrete scenarios: one key,
`card_network`, with the two values `Visa` and `Mastercard`. -/
def exampleDomain : DirectiveDomain :=
  { table := [("card_network", ["Visa", "Mastercard"])] }

/-- A constraint graph with no contradicting edges. -/
def graphNoEdges : ConstraintGraph := { incompatible := [], aggregatedKeys := [] }

/-- A constraint graph whose only edge marks connector `A` as not
supporting the Visa card network. -/
def graphVisaNotA : ConstraintGraph :=
  { incompatible :=
      [({ key := "card_network", value := "Visa" }, connectorDirValue "A")]
  , aggregatedKeys := [] }

/-- Seeded data: the edge-free graph with the single connector `A`. -/
def seedNoEdgesA : SeedData := { cgraph := graphNoEdges, connectors := ["A"] }

/-- Seeded data: `A` does not support Visa; `A` is the only connector. -/
def seedVisaNotA : SeedData := { cgraph := graphVisaNotA, connectors := ["A"] }

/-- Seeded data: `A` does not support Visa; three connectors, `A` in the
middle, to observe output ordering. -/
def seedThreeConnectors : SeedData :=
  { cgraph := graphVisaNotA, connectors := ["B", "A", "C"] }

/-- A rule whose first statement's only clause asserts both Visa and
Mastercard (a bare context that is unsatisfiable on its own), followed by a
second, satisfiable statement. -/
def ruleContradictoryClause : Rule :=
  { name := "r1"
  , statements :=
      [ { clauses :=
            [{ comparisons :=
                 [{ key := "card_network", value := "Visa" },
                  { key := "card_network", value := "Mastercard" }] }]
        , payload := "p1" }
      , { clauses :=
            [{ comparisons := [{ key := "card_network", value := "Visa" }] }]
        , payload := "p2" } ]
  , defaultSelection := "d" }

/-- The spec's two-statement scenario: statement 1 requires Visa; statement
2 is the always-true default (a single clause with no comparisons). -/
def ruleVisaThenDefault : Rule :=
  { name := "r2"
  , statements :=
      [ { clauses :=
            [{ comparisons := [{ key := "card_network", value := "Visa" }] }]
        , payload := "p1" }
      , { clauses := [{ comparisons := [] }], payload := "p2" } ]
  , defaultSelection := "d" }

/-- A rule referencing the unrecognized value `Unobtainium`. -/
def ruleUnknownValue : Rule :=
  { name := "r3"
  , statements :=
      [ { clauses :=
            [{ comparisons :=
                 [{ key := "card_network", value := "Unobtainium" }] }]
        , payload := "p" } ]
  , defaultSelection := "d" }

/-- A rule with an empty condition set: no statements, only the default. -/
def ruleEmptyConditions : Rule :=
  { name := "r0", statements := [], defaultSelection := "d" }

/-- A seeding input whose pre-seeding pipeline succeeds. -/
def seedInputOk : SeedInput := { buildResult := Except.ok seedVisaNotA }

theorem Context.pop_push (ctx : Context) (v : DirValue) :
    (ctx.push v).pop = ctx := by
  show (ctx ++ [v]).dropLast = ctx
  rw [List.dropLast_concat]

theorem checkConnectorsLoop_context_eq (g : ConstraintGraph)
    (cands : List (ConnectorChoice × DirValue)) :
    ∀ (ctx : Context) (invalid : List ConnectorChoice),
      (checkConnectorsLoop g cands ctx invalid).1 = ctx := by
  induction cands with
  | nil => intro ctx invalid; rfl
  | cons p rest ih =>
      intro ctx invalid
      obtain ⟨conn, choice⟩ := p
      simp only [checkConnectorsLoop]
      split
      · exact ih ctx invalid
      · rw [ih, Context.pop_push]

theorem mem_checkConnectorsLoop (g : ConstraintGraph)
    (cands : List (ConnectorChoice × DirValue)) :
    ∀ (ctx : Context) (invalid : List ConnectorChoice)
      (c : ConnectorChoice), c ∈ invalid →
      c ∈ (checkConnectorsLoop g cands ctx invalid).2 := by
  induction cands with
  | nil => intro ctx invalid c hc; exact hc
  | cons p rest ih =>
      intro ctx invalid c hc
      obtain ⟨conn, choice⟩ := p
      simp only [checkConnectorsLoop]
      split
      · exact ih ctx invalid c hc
      · apply ih
        split
        · exact hc
        · exact List.mem_cons_of_mem _ hc

theorem mem_contextsLoop (g : ConstraintGraph) :
    ∀ (ctxs : List Context) (cands : List (ConnectorChoice × DirValue))
      (invalid invalid2 : List ConnectorChoice) (c : ConnectorChoice),
      c ∈ invalid →
      contextsLoop g ctxs cands invalid = Except.ok invalid2 →
      c ∈ invalid2 := by
  intro ctxs
  induction ctxs with
  | nil =>
      intro cands invalid invalid2 c hc h
      injection h with h2
      exact h2 ▸ hc
  | cons ctx rest ih =>
      intro cands invalid invalid2 c hc h
      revert h
      simp only [contextsLoop]
      cases hA : g.perform_context_analysis ctx with
      | error e => intro h; exact Except.noConfusion h
      | ok u =>
          intro h
          exact ih cands _ invalid2 c
            (mem_checkConnectorsLoop g cands ctx invalid c hc) h

theorem checkConnectorsLoop_skip (g : ConstraintGraph) :
    ∀ (pre post : List (ConnectorChoice × DirValue)) (c : ConnectorChoice)
      (v : DirValue) (ctx : Context) (invalid : List ConnectorChoice),
      c ∈ invalid →
      checkConnectorsLoop g (pre ++ (c, v) :: post) ctx invalid =
        checkConnectorsLoop g (pre ++ post) ctx invalid := by
  intro pre
  induction pre with
  | nil =>
      intro post c v ctx invalid hc
      simp only [List.nil_append, checkConnectorsLoop]
      rw [if_pos hc]
  | cons p rest ih =>
      intro post c v ctx invalid hc
      obtain ⟨conn, choice⟩ := p
      simp only [List.cons_append, checkConnectorsLoop]
      split
      · exact ih post c v ctx invalid hc
      · apply ih
        split
        · exact hc
        · exact List.mem_cons_of_mem _ hc

theorem map_pair_filter_fst (f : ConnectorChoice → DirValue)
    (invalid : List ConnectorChoice) :
    ∀ (l : List ConnectorChoice),
      ((l.map (fun c => (c, f c))).filter
          (fun p => !decide (p.1 ∈ invalid))).map (fun p => p.1) =
        l.filter (fun c => !decide (c ∈ invalid)) := by
  intro l
  induction l with
  | nil => rfl
  | cons a l ih =>
      by_cases h : a ∈ invalid
      · simp [List.filter_cons, h, ih]
      · simp [List.filter_cons, h, ih]

/-- C1 (counterexample): the claim says that when a bare conjunctive
context is itself unsatisfiable, `get_valid_connectors_for_rule` skips to
the next context and runs to completion, returning a connector list.  On
the concrete rule whose first clause asserts two different card networks
(bare context unsatisfiable) followed by a satisfiable second statement,
the function instead returns the analysis error: no connector list is ever
produced, refuting the claim. -/
theorem c1_skip_claim_counterexample :
    ¬ ∃ out, get_valid_connectors_for_rule exampleDomain
        { seed := some seedNoEdgesA } ruleContradictoryClause =
        Except.ok out := by
  intro hout
  obtain ⟨out, hout⟩ := hout
  have h : get_valid_connectors_for_rule exampleDomain
      { seed := some seedNoEdgesA } ruleContradictoryClause =
      Except.error "unsatisfiable assertion: card_network Visa" := rfl
  rw [h] at hout
  exact Except.noConfusion hout

/-- C1 (amended): each produced context is first validated alone against
the graph, but when that bare context is unsatisfiable the evaluation does
not skip — the analysis error propagates (`err_to_js()?`, source lines
182-189) and the whole evaluation aborts with that error; later contexts
and candidate connectors are never examined. -/
theorem c1_bare_context_error_aborts (g : ConstraintGraph) (ctx : Context)
    (rest : List Context) (cands : List (ConnectorChoice × DirValue))
    (invalid : List ConnectorChoice) (e : String)
    (h : g.perform_context_analysis ctx = Except.error e) :
    contextsLoop g (ctx :: rest) cands invalid = Except.error e := by
  simp only [contextsLoop, h]

/-- Witness for C1 (amended): a concrete unsatisfiable bare context aborts
the context loop even though a satisfiable context follows it. -/
theorem c1_bare_context_error_aborts_witness :
    contextsLoop graphNoEdges
      [[{ key := "card_network", value := "Visa" },
        { key := "card_network", value := "Mastercard" }],
       [{ key := "card_network", value := "Visa" }]]
      [("A", connectorDirValue "A")] [] =
      Except.error "unsatisfiable assertion: card_network Visa" :=
  c1_bare_context_error_aborts graphNoEdges _ _ _ _ _ rfl

/-- C2 (counterexample): in the spec's two-statement scenario (statement 1
requires Visa, the graph marks connector `A` as not supporting Visa,
statement 2 is the always-true default), the claim says the final result
includes `A`.  It does not: the evaluation returns the empty list, so no
output containing `A` exists. -/
theorem c2_includes_a_counterexample :
    ¬ ∃ out, get_valid_connectors_for_rule exampleDomain
        { seed := some seedVisaNotA } ruleVisaThenDefault =
        Except.ok out ∧ "A" ∈ out := by
  intro hout
  obtain ⟨out, hout, hmem⟩ := hout
  have h : get_valid_connectors_for_rule exampleDomain
      { seed := some seedVisaNotA } ruleVisaThenDefault =
      Except.ok ([] : List ConnectorChoice) := rfl
  rw [h] at hout
  injection hout with h2
  rw [← h2] at hmem
  exact List.not_mem_nil _ hmem

/-- C2 (amended): in the same scenario the final result excludes `A`.
`A` fails analysis under statement 1's (satisfiable) context, is
permanently recorded in the invalid set, is skipped by the `continue`
under statement 2's unconstrained context, and the final `retain` removes
it, leaving the empty list. -/
theorem c2_excludes_a :
    get_valid_connectors_for_rule exampleDomain { seed := some seedVisaNotA }
      ruleVisaThenDefault = Except.ok ([] : List ConnectorChoice) := rfl

/-- C3: whenever the evaluation runs to completion with final invalid set
`invalid`, the output equals the seeded candidate connector list filtered
by non-membership in `invalid` — the input connectors in their original
order with the invalid ones removed — and is therefore an ordered subset
(sublist) of the input list. -/
theorem c3_output_is_ordered_remainder (dom : DirectiveDomain)
    (sd : SeedData) (r : Rule) (invalid : List ConnectorChoice)
    (h : evalInvalid dom sd r = Except.ok invalid) :
    get_valid_connectors_for_rule dom { seed := some sd } r =
      Except.ok (sd.connectors.filter (fun c => !decide (c ∈ invalid))) ∧
    (sd.connectors.filter (fun c => !decide (c ∈ invalid))).Sublist
      sd.connectors := by
  constructor
  · simp only [get_valid_connectors_for_rule, h, map_pair_filter_fst]
  · exact List.filter_sublist _

/-- Witness for C3: three seeded connectors `B`, `A`, `C`; `A` becomes
invalid; the output is `B`, `C` in input order. -/
theorem c3_output_is_ordered_remainder_witness :
    get_valid_connectors_for_rule exampleDomain
        { seed := some seedThreeConnectors } ruleVisaThenDefault =
      Except.ok (seedThreeConnectors.connectors.filter
        (fun c => !decide (c ∈ (["A"] : List ConnectorChoice)))) ∧
    (seedThreeConnectors.connectors.filter
        (fun c => !decide (c ∈ (["A"] : List ConnectorChoice)))).Sublist
      seedThreeConnectors.connectors :=
  c3_output_is_ordered_remainder exampleDomain seedThreeConnectors
    ruleVisaThenDefault ["A"] rfl

/-- C4: the candidate loop pushes one connector assertion per analysed
candidate and pops it afterwards regardless of the analysis outcome, so
after a full pass over any candidate list the context's assertion sequence
length equals its length before the loop began. -/
theorem c4_push_pop_symmetry (g : ConstraintGraph)
    (cands : List (ConnectorChoice × DirValue)) (ctx : Context)
    (invalid : List ConnectorChoice) :
    (checkConnectorsLoop g cands ctx invalid).1.length = ctx.length := by
  rw [checkConnectorsLoop_context_eq]

/-- C5: the invalid-connector set only grows.  If `c` is in the invalid
set, then: `c` is absent from the final output of the evaluation whose
final invalid set contains it; any further run of the context loop keeps
`c` in the invalid set; and the candidate loop skips `c` entirely — a
candidate entry for `c` can be deleted from the candidate list without
changing the loop's result (it is never re-analysed). -/
theorem c5_invalid_permanent (dom : DirectiveDomain) (sd : SeedData)
    (r : Rule) (invalid : List ConnectorChoice) (c : ConnectorChoice)
    (out : List ConnectorChoice) (ctxs2 : List Context)
    (invalid2 : List ConnectorChoice)
    (pre post : List (ConnectorChoice × DirValue)) (v : DirValue)
    (ctx : Context)
    (hinv : evalInvalid dom sd r = Except.ok invalid)
    (hc : c ∈ invalid)
    (hout : get_valid_connectors_for_rule dom { seed := some sd } r =
      Except.ok out)
    (hloop : contextsLoop sd.cgraph ctxs2
        (sd.connectors.map (fun x => (x, connectorDirValue x))) invalid =
      Except.ok invalid2) :
    c ∉ out ∧ c ∈ invalid2 ∧
      checkConnectorsLoop sd.cgraph (pre ++ (c, v) :: post) ctx invalid =
        checkConnectorsLoop sd.cgraph (pre ++ post) ctx invalid := by
  refine ⟨?_, mem_contextsLoop sd.cgraph ctxs2 _ invalid invalid2 c hc hloop,
    checkConnectorsLoop_skip sd.cgraph pre post c v ctx invalid hc⟩
  have hout2 : get_valid_connectors_for_rule dom { seed := some sd } r =
      Except.ok (sd.connectors.filter (fun x => !decide (x ∈ invalid))) := by
    simp only [get_valid_connectors_for_rule, hinv, map_pair_filter_fst]
  rw [hout2] at hout
  injection hout with h2
  intro hmem
  rw [← h2] at hmem
  have hp := (List.mem_filter.mp hmem).2
  simp [hc] at hp

/-- Witness for C5: connector `A`, invalid after statement 1 of the Visa
scenario, is not in the (empty) output, stays invalid through a further
context-loop run, and its candidate entry can be dropped without changing
the candidate loop's result. -/
theorem c5_invalid_permanent_witness :
    ("A" : ConnectorChoice) ∉ ([] : List ConnectorChoice) ∧
    ("A" : ConnectorChoice) ∈ (["A"] : List ConnectorChoice) ∧
      checkConnectorsLoop seedVisaNotA.cgraph
          ([] ++ ("A", connectorDirValue "A") :: []) [] ["A"] =
        checkConnectorsLoop seedVisaNotA.cgraph ([] ++ []) [] ["A"] :=
  c5_invalid_permanent exampleDomain seedVisaNotA ruleVisaThenDefault
    ["A"] "A" [] [[]] ["A"] [] [] (connectorDirValue "A") []
    rfl (List.mem_singleton.mpr rfl) rfl rfl

/-- C6: evaluation is deterministic and stateless — the call leaves the
process state unchanged, and a second call on the state returned by the
first yields the same output list. -/
theorem c6_deterministic (dom : DirectiveDomain) (st : WasmState)
    (r : Rule) :
    (get_valid_connectors_call dom st r).2 = st ∧
    (get_valid_connectors_call dom (get_valid_connectors_call dom st r).2
        r).1 =
      (get_valid_connectors_call dom st r).1 :=
  ⟨rfl, rfl⟩

/-- C7: a rule with an empty condition set (no statements — only the
always-true default selection) produces no conjunctive context, so with a
non-empty connector list and a graph with no contradicting edges the
evaluation returns the full input connector list unchanged and in order. -/
theorem c7_empty_rule_returns_all (dom : DirectiveDomain) (sd : SeedData)
    (r : Rule) (h1 : r.statements = []) (h2 : sd.connectors ≠ [])
    (h3 : sd.cgraph.incompatible = []) :
    get_valid_connectors_for_rule dom { seed := some sd } r =
      Except.ok sd.connectors := by
  have hlow : lower_rule dom r = Except.ok [] := by
    simp only [lower_rule, h1]
    rfl
  have hinv : evalInvalid dom sd r = Except.ok [] := by
    simp [evalInvalid, hlow, ruleContexts, contextsLoop]
  simp [get_valid_connectors_for_rule, hinv, map_pair_filter_fst]
  have hcomp : ((fun p : ConnectorChoice × DirValue => p.1) ∘
      fun c => (c, connectorDirValue c)) = id := rfl
  rw [hcomp, List.map_id]

/-- Witness for C7: the empty-conditions rule on the edge-free graph with
the single connector `A` returns exactly `[A]`. -/
theorem c7_empty_rule_returns_all_witness :
    get_valid_connectors_for_rule exampleDomain { seed := some seedNoEdgesA }
      ruleEmptyConditions = Except.ok seedNoEdgesA.connectors :=
  c7_empty_rule_returns_all exampleDomain seedNoEdgesA ruleEmptyConditions
    rfl (List.cons_ne_nil _ _) rfl

/-- C8: if lowering the rule fails, `get_valid_connectors_for_rule`
returns the lowering error unchanged, and the result does not depend on
the seeded constraint graph at all (replacing the graph by any other graph
gives the same error): no context is produced and no graph analysis is
performed. -/
theorem c8_lowering_error_short_circuits (dom : DirectiveDomain)
    (sd : SeedData) (r : Rule) (e : String) (g2 : ConstraintGraph)
    (h : lower_rule dom r = Except.error e) :
    get_valid_connectors_for_rule dom { seed := some sd } r =
      Except.error e ∧
    get_valid_connectors_for_rule dom
        { seed := some { cgraph := g2, connectors := sd.connectors } } r =
      Except.error e := by
  constructor <;> simp [get_valid_connectors_for_rule, evalInvalid, h]

/-- Witness for C8: the rule referencing `Unobtainium` fails lowering and
yields the same lowering error under two different seeded graphs. -/
theorem c8_lowering_error_short_circuits_witness :
    get_valid_connectors_for_rule exampleDomain { seed := some seedNoEdgesA }
        ruleUnknownValue =
      Except.error "lowering error: unknown value Unobtainium" ∧
    get_valid_connectors_for_rule exampleDomain
        { seed := some { cgraph := graphVisaNotA,
                         connectors := seedNoEdgesA.connectors } }
        ruleUnknownValue =
      Except.error "lowering error: unknown value Unobtainium" :=
  c8_lowering_error_short_circuits exampleDomain seedNoEdgesA
    ruleUnknownValue _ graphVisaNotA rfl

/-- C9: for every variants table and every typed directive key,
`get_variant_values` fails with the no-variants error exactly on the seven
keys without an enumerable domain (PaymentAmount, Connector, CardBin,
BusinessLabel, MetaData, IssuerName, AcquirerFraudRate), and on every
other key it returns the full variant list of the enumeration that key is
mapped to (`variantSource`). -/
theorem c9_variant_values (tables : DirEnum → List String)
    (key : DirKeyKind) :
    (get_variant_values tables key =
        Except.error "Key does not have variants" ↔
      key ∈ nonEnumerableKeys) ∧
    get_variant_values tables key =
      (match variantSource key with
       | some e => Except.ok (tables e)
       | none => Except.error "Key does not have variants") ∧
    (variantSource key = none ↔ key ∈ nonEnumerableKeys) := by
  cases key <;>
    simp [get_variant_values, variantSource, nonEnumerableKeys]

/-- C10: seeding is once-only and atomic on failure — when the once-cell
already holds seeded data, any further `seed_knowledge_graph` call fails
and leaves the state unchanged; and `get_valid_connectors_for_rule` on an
unseeded state fails with the not-seeded error before any analysis. -/
theorem c10_seed_once (st : WasmState) (sd : SeedData) (inp : SeedInput)
    (dom : DirectiveDomain) (r : Rule) (st2 : WasmState)
    (h1 : st.seed = some sd) (h2 : st2.seed = none) :
    (seed_knowledge_graph st inp).1.isOk = false ∧
    (seed_knowledge_graph st inp).2 = st ∧
    get_valid_connectors_for_rule dom st2 r =
      Except.error "Data not seeded" := by
  refine ⟨?_, ?_, ?_⟩
  · cases hb : inp.buildResult <;>
      simp [seed_knowledge_graph, hb, h1, Except.isOk, Except.toBool]
  · cases hb : inp.buildResult <;>
      simp [seed_knowledge_graph, hb, h1]
  · simp [get_valid_connectors_for_rule, h2]

/-- Witness for C10: with the cell already seeded, a further seeding call
with a successfully built input fails and leaves the state intact; on the
fresh state, evaluation reports that data is not seeded. -/
theorem c10_seed_once_witness :
    (seed_knowledge_graph { seed := some seedVisaNotA } seedInputOk).1.isOk =
      false ∧
    (seed_knowledge_graph { seed := some seedVisaNotA } seedInputOk).2 =
      { seed := some seedVisaNotA } ∧
    get_valid_connectors_for_rule exampleDomain { seed := none }
      ruleEmptyConditions = Except.error "Data not seeded" :=
  c10_seed_once { seed := some seedVisaNotA } seedVisaNotA seedInputOk
    exampleDomain ruleEmptyConditions { seed := none } rfl rfl

end Routing
